import Mathlib

/-!
Verification of the h5pp Conan package descriptor (src/conanfile.py).

The recipe is declarative metadata plus four lifecycle methods that delegate
to an external build driver (CMake) under an external orchestrator (the
package manager).  We embed:

* the static metadata (`requires`, `options`, `default_options`) as the
  literal data the Python file declares;
* `configure`, `build`, `package` as functions that return the list of
  external build-driver steps they invoke, in order, together with the
  error (if any) they propagate; driver outcomes (success / failure of
  each underlying step) are an explicit `Driver` parameter;
* the orchestrated run (configure, then build, then package, halting at
  the first propagated error) — the orchestrator itself is the external
  package manager, so it is modelled from the spec;
* `package_id`, whose `self.info.header_only()` call is a delegation into
  the external conans library, modelled from the spec as clearing both the
  settings and the options from the binary identity.
-/

namespace H5pp

/-- Values a Python option assignment can carry in this recipe's domain:
the recipe declares boolean domains, but a user could try to supply an
arbitrary string. -/
inductive PyVal
  | pyBool (b : Bool)
  | pyStr (s : String)
  deriving DecidableEq

/-- The three recognized boolean options of the recipe, resolved to values
(a `BuildConfiguration` in the spec's terms). -/
structure Options where
  tests : Bool
  examples : Bool
  verbose : Bool
  deriving DecidableEq

/-- Embeds line 16: `requires = "eigen/3.3.7", "spdlog/1.7.0", "hdf5/1.12.0"`. -/
def requires : List String := ["eigen/3.3.7", "spdlog/1.7.0", "hdf5/1.12.0"]

/-- Embeds lines 24-28: the declared options and their permitted value
domains, each `[True, False]`. -/
def optionsDecl : List (String × List PyVal) :=
  [("tests", [PyVal.pyBool true, PyVal.pyBool false]),
   ("examples", [PyVal.pyBool true, PyVal.pyBool false]),
   ("verbose", [PyVal.pyBool true, PyVal.pyBool false])]

/-- Embeds lines 30-34: the textual default-option assignments. -/
def default_options : List String := ["tests=True", "examples=False", "verbose=False"]

/-- Splits a character list at the first occurrence of `c`; `none` when `c`
does not occur.  Used to read the `name=value` and `name/version` strings
the recipe declares. -/
def breakAtChar (c : Char) : List Char → Option (List Char × List Char)
  | [] => none
  | x :: xs =>
    if x = c then some ([], xs)
    else
      match breakAtChar c xs with
      | some (l, r) => some (x :: l, r)
      | none => none

/-- Splits a string at the first occurrence of `sep` into the part before
and the part after. -/
def splitPair (sep : Char) (s : String) : Option (String × String) :=
  match breakAtChar sep s.toList with
  | some (l, r) => some (String.mk l, String.mk r)
  | none => none

/-- Reads a Python boolean literal as written in the default-option strings. -/
def parsePyBool : String → Option Bool
  | "True" => some true
  | "False" => some false
  | _ => none

/-- The value the textual assignment list gives to option `nm`: exactly one
`nm=value` entry must be present and its value must be a boolean literal. -/
def assignedValue (assigns : List String) (nm : String) : Option Bool :=
  match assigns.filterMap (fun s =>
      match splitPair '=' s with
      | some (n, v) => if n = nm then parsePyBool v else none
      | none => none) with
  | [b] => some b
  | _ => none

/-- The options resolved from `default_options` alone. -/
def resolveDefaults : Option Options :=
  match assignedValue default_options "tests",
        assignedValue default_options "examples",
        assignedValue default_options "verbose" with
  | some t, some e, some v => some ⟨t, e, v⟩
  | _, _, _ => none

/-- Modelled from the spec: the external package manager validates each
user-supplied option against the declared domains in `optionsDecl` before
any lifecycle method runs; an unrecognized name or an out-of-domain value
is rejected. -/
def validateUserOption (nm : String) (v : PyVal) : Bool :=
  match optionsDecl.lookup nm with
  | some dom => decide (v ∈ dom)
  | none => false

/-- Modelled from the spec: a `BuildConfiguration` is "constructed once per
build invocation from user-supplied options layered over defaults"; an
invalid user assignment is rejected (no configuration is produced). -/
def resolveOptions (user : List (String × PyVal)) : Option Options :=
  if user.all (fun p => validateUserOption p.1 p.2) then
    match resolveDefaults with
    | none => none
    | some defs =>
      some (user.foldl (fun acc p =>
        match p with
        | ("tests", PyVal.pyBool b) => { acc with tests := b }
        | ("examples", PyVal.pyBool b) => { acc with examples := b }
        | ("verbose", PyVal.pyBool b) => { acc with verbose := b }
        | _ => acc) defs)
  else none

/-- A value forwarded to the build driver as a CMake definition: the three
option-derived entries are booleans, the download-method tag is a string. -/
inductive DefValue
  | ofBool (b : Bool)
  | ofStr (s : String)
  deriving DecidableEq

/-- An invocation of one of the external build driver's steps. -/
inductive Step
  | driverConfigure (defs : List (String × DefValue))
  | driverBuild
  | driverTest
  | driverInstall
  deriving DecidableEq

/-- The error taxonomy of the spec. -/
inductive ConanError
  | toolchainError
  | buildError
  | testFailure
  | installError
  deriving DecidableEq

/-- Outcome of each underlying build-driver step, supplied by the
environment: whether the driver's configure, build, test and install steps
would succeed when invoked. -/
structure Driver where
  configureOk : Bool
  buildOk : Bool
  testOk : Bool
  installOk : Bool
  deriving DecidableEq

/-- Embeds lines 42-45: the four `cmake.definitions` assignments of
`h5ppConan.build`, in source order. -/
def buildDefinitions (o : Options) : List (String × DefValue) :=
  [("H5PP_ENABLE_TESTS", DefValue.ofBool o.tests),
   ("H5PP_BUILD_EXAMPLES", DefValue.ofBool o.examples),
   ("H5PP_PRINT_INFO", DefValue.ofBool o.verbose),
   ("H5PP_DOWNLOAD_METHOD", DefValue.ofStr "conan")]

/-- Embeds lines 36-37, `h5ppConan.configure`:
`tools.check_min_cppstd(self, "17")` raises (the spec's `ToolchainError`)
when the detected language-standard version is below 17, and does nothing
else — it invokes no driver step and sets no configuration key. -/
def configure (cppstd : Nat) : List Step × Option ConanError :=
  if 17 ≤ cppstd then ([], none) else ([], some ConanError.toolchainError)

/-- Embeds lines 40-49, `h5ppConan.build`: set the four definitions, invoke
the driver's configure step, then its build step, then — only when
`options.tests` holds — its test step.  A raised driver exception
propagates, so later steps are not reached.  Returns the steps invoked, in
order, and the propagated error if any. -/
def build (o : Options) (d : Driver) : List Step × Option ConanError :=
  if d.configureOk then
    if d.buildOk then
      if o.tests then
        if d.testOk then
          ([Step.driverConfigure (buildDefinitions o), Step.driverBuild, Step.driverTest], none)
        else
          ([Step.driverConfigure (buildDefinitions o), Step.driverBuild, Step.driverTest],
           some ConanError.testFailure)
      else ([Step.driverConfigure (buildDefinitions o), Step.driverBuild], none)
    else ([Step.driverConfigure (buildDefinitions o), Step.driverBuild],
          some ConanError.buildError)
  else ([Step.driverConfigure (buildDefinitions o)], some ConanError.buildError)

/-- Embeds lines 51-53, `h5ppConan.package`: invoke the driver's install
step; a driver failure propagates as the spec's `InstallError`. -/
def package (d : Driver) : List Step × Option ConanError :=
  if d.installOk then ([Step.driverInstall], none)
  else ([Step.driverInstall], some ConanError.installError)

/-- Modelled from the spec: the external package-management orchestrator
drives "configure → build (optionally test) → package (install)" linearly,
and every error is "fatal to the current invocation", halting the run. -/
def orchestratedRun (cppstd : Nat) (o : Options) (d : Driver) :
    List Step × Option ConanError :=
  match configure cppstd with
  | (cs, some e) => (cs, some e)
  | (cs, none) =>
    match build o d with
    | (bs, some e) => (cs ++ bs, some e)
    | (bs, none) =>
      match package d with
      | (ps, r) => (cs ++ bs ++ ps, r)

/-- The settings declared on line 14 (`os`, `compiler`, `build_type`,
`arch`), as concrete values of one invocation. -/
structure SettingsValues where
  os : String
  compiler : String
  build_type : String
  arch : String
  deriving DecidableEq

/-- The data entering a package's binary identity: its settings and its
option values. -/
structure PackageInfo where
  settings : List (String × String)
  options : List (String × Bool)
  deriving DecidableEq

/-- The identity data before any `package_id` adjustment: all four declared
settings and all three option values. -/
def initialInfo (s : SettingsValues) (o : Options) : PackageInfo :=
  { settings :=
      [("os", s.os), ("compiler", s.compiler),
       ("build_type", s.build_type), ("arch", s.arch)],
    options :=
      [("tests", o.tests), ("examples", o.examples), ("verbose", o.verbose)] }

/-- Modelled from the spec: `package_id()` "declares that this package's
binary identity is independent of compiler/architecture/build-type settings
(header-only classification), so that a single package build serves all
consumer configurations".  The external conans library's
`info.header_only()` implements this by clearing both the settings and the
options from the identity. -/
def headerOnlyInfo (_info : PackageInfo) : PackageInfo :=
  { settings := [], options := [] }

/-- Embeds lines 55-56, `h5ppConan.package_id`: `self.info.header_only()`. -/
def package_id (s : SettingsValues) (o : Options) : PackageInfo :=
  headerOnlyInfo (initialInfo s o)

/-- Parses one declared requirement `name/version`. -/
def parseRequire (s : String) : Option (String × String) :=
  splitPair '/' s

/-- The dependency list declared by the descriptor, as (name, version). -/
def declaredDeps : Option (List (String × String)) := requires.mapM parseRequire

/-- Modelled from the spec: the versions forwarded to the build driver are
exactly the declared pinned list — "no range resolution logic exists in
this layer". -/
def forwardedDeps : Option (List (String × String)) := declaredDeps

end H5pp

namespace H5pp

/-- The version `forwardedDeps` carries for dependency `nm`. -/
def forwardedVersion (nm : String) : Option String :=
  match forwardedDeps with
  | some l => l.lookup nm
  | none => none

/-- Helper: the declared option table recognizes exactly the names
`tests`, `examples`, `verbose`, each with domain `[True, False]`. -/
theorem lookup_optionsDecl (nm : String) :
    optionsDecl.lookup nm =
      if nm = "tests" ∨ nm = "examples" ∨ nm = "verbose"
      then some [PyVal.pyBool true, PyVal.pyBool false] else none := by
  by_cases h1 : nm = "tests"
  · subst h1; decide
  · by_cases h2 : nm = "examples"
    · subst h2; decide
    · by_cases h3 : nm = "verbose"
      · subst h3; decide
      · have e1 : (nm == "tests") = false := beq_eq_false_iff_ne.mpr h1
        have e2 : (nm == "examples") = false := beq_eq_false_iff_ne.mpr h2
        have e3 : (nm == "verbose") = false := beq_eq_false_iff_ne.mpr h3
        simp [optionsDecl, List.lookup, e1, e2, e3, h1, h2, h3]

/-- Claim C1: for every combination of the three boolean options,
`configure` succeeds iff the detected language-standard version is at
least 17; below 17 it fails with `ToolchainError`, invokes no driver
step, sets no configuration key, and the whole run performs nothing
else. -/
theorem configure_iff_cppstd17 (o : Options) (d : Driver) (cppstd : Nat) :
    ((configure cppstd).2 = none ↔ 17 ≤ cppstd) ∧
    (configure cppstd).1 = [] ∧
    (cppstd < 17 →
      configure cppstd = ([], some ConanError.toolchainError) ∧
      orchestratedRun cppstd o d = ([], some ConanError.toolchainError)) := by
  refine ⟨?_, ?_, ?_⟩
  · by_cases h : 17 ≤ cppstd <;> simp [configure, h]
  · by_cases h : 17 ≤ cppstd <;> simp [configure, h]
  · intro hlt
    have h : ¬ 17 ≤ cppstd := by omega
    exact ⟨by simp [configure, h], by simp [orchestratedRun, configure, h]⟩

/-- Witness for C1 at language-standard version 11. -/
theorem configure_iff_cppstd17_w :
    (11 : Nat) < 17 ∧
    configure 11 = ([], some ConanError.toolchainError) ∧
    orchestratedRun 11 ⟨true, false, false⟩ ⟨true, true, true, true⟩ =
      ([], some ConanError.toolchainError) := by
  have h := configure_iff_cppstd17 ⟨true, false, false⟩ ⟨true, true, true, true⟩ 11
  exact ⟨by decide, (h.2.2 (by decide)).1, (h.2.2 (by decide)).2⟩

/-- Claim C2: for every option assignment, the very first driver step of
`build` receives exactly four configuration key/value pairs: the three
derived one-to-one from `tests`, `examples`, `verbose`, plus the constant
download-method tag `"conan"`; no other keys are produced. -/
theorem build_forwards_exactly_four_defs (o : Options) (d : Driver) :
    (build o d).1.head? = some (Step.driverConfigure (buildDefinitions o)) ∧
    (buildDefinitions o).map Prod.fst =
      ["H5PP_ENABLE_TESTS", "H5PP_BUILD_EXAMPLES", "H5PP_PRINT_INFO",
       "H5PP_DOWNLOAD_METHOD"] ∧
    (buildDefinitions o).lookup "H5PP_ENABLE_TESTS" = some (DefValue.ofBool o.tests) ∧
    (buildDefinitions o).lookup "H5PP_BUILD_EXAMPLES" = some (DefValue.ofBool o.examples) ∧
    (buildDefinitions o).lookup "H5PP_PRINT_INFO" = some (DefValue.ofBool o.verbose) ∧
    (buildDefinitions o).lookup "H5PP_DOWNLOAD_METHOD" = some (DefValue.ofStr "conan") := by
  refine ⟨?_, rfl, ?_, ?_, ?_, ?_⟩
  · unfold build; split_ifs <;> rfl
  all_goals simp [buildDefinitions, List.lookup]

/-- Claim C3: with `tests = false`, the driver's test step is never
invoked, whatever the other options and whatever the driver's step
outcomes would have been. -/
theorem build_no_test_step_when_tests_false (e v : Bool) (d : Driver) :
    Step.driverTest ∉ (build ⟨false, e, v⟩ d).1 := by
  unfold build
  split_ifs <;> simp_all

/-- Witness for C3 with all driver steps succeeding. -/
theorem build_no_test_step_when_tests_false_w :
    Step.driverTest ∉ (build ⟨false, true, true⟩ ⟨true, true, true, true⟩).1 :=
  build_no_test_step_when_tests_false true true ⟨true, true, true, true⟩

/-- Claim C4: `build` invokes the driver steps in the exact order
configure, build, then — only when `tests` is set — test; a failing
driver step propagates its error so later steps are not reached, and no
step is repeated or reordered.  The trace is fully characterized. -/
theorem build_step_order (o : Options) (d : Driver) :
    (build o d).1 =
      if d.configureOk then
        if d.buildOk then
          Step.driverConfigure (buildDefinitions o) :: Step.driverBuild ::
            (if o.tests then [Step.driverTest] else [])
        else [Step.driverConfigure (buildDefinitions o), Step.driverBuild]
      else [Step.driverConfigure (buildDefinitions o)] := by
  unfold build
  split_ifs <;> rfl

/-- Claim C5: the package identity is the same across any two settings
assignments (compiler, architecture, build type, operating system). -/
theorem package_id_independent_of_settings (s₁ s₂ : SettingsValues) (o : Options) :
    package_id s₁ o = package_id s₂ o := rfl

/-- Claim C6: with no user-supplied options, the resolved configuration is
`tests = true`, `examples = false`, `verbose = false`. -/
theorem default_options_resolve :
    resolveOptions [] = some ⟨true, false, false⟩ := by decide

/-- Claim C7: the declared dependency list pins eigen 3.3.7, spdlog 1.7.0
and hdf5 1.12.0 exactly, and the versions forwarded to the build driver
are those declared versions, unchanged. -/
theorem requires_pinned_versions :
    declaredDeps = some [("eigen", "3.3.7"), ("spdlog", "1.7.0"), ("hdf5", "1.12.0")] ∧
    forwardedDeps = declaredDeps ∧
    forwardedVersion "eigen" = some "3.3.7" ∧
    forwardedVersion "spdlog" = some "1.7.0" ∧
    forwardedVersion "hdf5" = some "1.12.0" := by
  exact ⟨by decide, rfl, by decide, by decide, by decide⟩

/-- Claim C8: with `tests = true` and a test suite that reports failures,
`build` surfaces `TestFailure`, the orchestrated run fails, and the
driver's install step is never reached in that run. -/
theorem failing_tests_block_install (e v i : Bool) (cppstd : Nat) :
    (build ⟨true, e, v⟩ ⟨true, true, false, i⟩).2 = some ConanError.testFailure ∧
    (orchestratedRun cppstd ⟨true, e, v⟩ ⟨true, true, false, i⟩).2 ≠ none ∧
    Step.driverInstall ∉ (orchestratedRun cppstd ⟨true, e, v⟩ ⟨true, true, false, i⟩).1 := by
  refine ⟨rfl, ?_, ?_⟩
  · by_cases h : 17 ≤ cppstd <;> simp [orchestratedRun, configure, h, build]
  · by_cases h : 17 ≤ cppstd <;> simp [orchestratedRun, configure, h, build]

/-- Witness for C8 on a compliant toolchain with defaults apart from the
failing test suite. -/
theorem failing_tests_block_install_w :
    (build ⟨true, false, false⟩ ⟨true, true, false, true⟩).2 = some ConanError.testFailure ∧
    (orchestratedRun 17 ⟨true, false, false⟩ ⟨true, true, false, true⟩).2 ≠ none ∧
    Step.driverInstall ∉ (orchestratedRun 17 ⟨true, false, false⟩ ⟨true, true, false, true⟩).1 :=
  failing_tests_block_install false false true 17

/-- Claim C9: the package identity is also the same across any two
assignments of the three boolean options: the header-only declaration
erases the options from binary identity, not just the settings. -/
theorem package_id_independent_of_options (s : SettingsValues) (o₁ o₂ : Options) :
    package_id s o₁ = package_id s o₂ := rfl

/-- Claim C10: an option assignment is accepted exactly when the name is
one of `tests`, `examples`, `verbose` and the value is the boolean `True`
or `False`; any user list containing a rejected assignment yields no
configuration at all, so neither `configure` nor `build` ever runs with
it. -/
theorem options_domain_boolean (nm : String) (v : PyVal) (user : List (String × PyVal)) :
    (validateUserOption nm v = true ↔
      ((nm = "tests" ∨ nm = "examples" ∨ nm = "verbose") ∧
       (v = PyVal.pyBool true ∨ v = PyVal.pyBool false))) ∧
    ((nm, v) ∈ user → validateUserOption nm v = false → resolveOptions user = none) := by
  constructor
  · unfold validateUserOption
    rw [lookup_optionsDecl]
    by_cases h : nm = "tests" ∨ nm = "examples" ∨ nm = "verbose"
    · simp [h]
    · simp [h]
  · intro hmem hval
    have hall : user.all (fun p => validateUserOption p.1 p.2) = false := by
      rw [List.all_eq_false]
      exact ⟨(nm, v), hmem, by simp [hval]⟩
    simp [resolveOptions, hall]

/-- Witness for C10: the unrecognized option name `color` is rejected. -/
theorem options_domain_boolean_w :
    resolveOptions [("color", PyVal.pyBool true)] = none :=
  (options_domain_boolean "color" (PyVal.pyBool true)
    [("color", PyVal.pyBool true)]).2 (by decide) (by decide)

end H5pp
